import Mathlib

/-!
Shallow embedding of the risk-aggregation core of the etherfi-buddy backend,
with theorems checking the natural-language specification against the code.

Modules embedded:
* `src/backend/main.py` — `calculate_risk_score`, `calculate_liquidity_health_index`
  (identical formulas appear in `src/backend copy/enhanced_risk_analysis.py`,
  `EnhancedRiskAnalyzer.calculate_overall_risk_score`);
* `src/backend/eigenexplorer_client.py` — `EigenExplorerClient.calculate_slashing_risk_score`;
* `src/backend copy/enhanced_portfolio_analyzer.py` —
  `EnhancedPortfolioAnalyzer.analyze_portfolio` and `_generate_recommendations`.

Numbers are modelled as exact rationals (Python floats idealized), Python's
`int(...)` conversion as truncation toward zero, and Python's `round` used by
the spec as Mathlib's `round`. Human-readable strings produced from format
templates are modelled as tagged payloads (template + numeric argument), so
that equality of the model values coincides with equality of the rendered
strings.
-/

/-- Python's `int(x)` on a float/rational: truncation toward zero. -/
def pyInt (q : ℚ) : ℤ := if 0 ≤ q then ⌊q⌋ else ⌈q⌉

/-- The clamp `max(0, min(100, n))` used throughout the scoring code. -/
def clamp100 (n : ℤ) : ℤ := max 0 (min 100 n)

/-- Python's `str.lower()` on the ASCII status strings used here, modelled
structurally so concrete instances reduce. -/
def str_lower (s : String) : String := ⟨s.data.map Char.toLower⟩

namespace Backend

/-- Tagged model of the reason strings produced by `calculate_risk_score`
(`main.py` lines 494-508): each constructor is one fixed format template,
carrying the numeric payload interpolated into it. -/
inductive Reason where
  | highAvsConcentration (pct : ℚ)
  | moderateLiquidityDepth (healthIndex : ℤ)
  | uptimeBelowOptimal (pct : ℚ)
  | elevatedSlashingRisk (score : ℤ)
  | allClearLowRisk
  | allClearStrongOperator
  | allClearDiversified
deriving DecidableEq, Repr

/-- Result triple of `calculate_risk_score`: `(score, grade, reasons[:3])`. -/
structure RiskScoreResult where
  score : ℤ
  grade : String
  reasons : List Reason
deriving DecidableEq, Repr

/-- Embedding of `calculate_risk_score` (`src/backend/main.py` lines 474-508;
byte-identical logic in `enhanced_risk_analysis.py` lines 330-373). -/
def calculate_risk_score (operator_uptime : ℚ) (avs_concentration : ℚ)
    (slashing_score : ℤ) (liquidity_health : ℤ) : RiskScoreResult :=
  let uptime_risk : ℚ := max 0 (100 - operator_uptime) * 2
  let concentration_risk : ℚ := min avs_concentration 100 * (1/2)
  let slashing_risk : ℚ := (slashing_score : ℚ) * (3/10)
  let liquidity_risk : ℚ := max 0 (100 - (liquidity_health : ℚ)) * (3/10)
  let score : ℤ :=
    clamp100 (pyInt (uptime_risk + concentration_risk + slashing_risk + liquidity_risk))
  let grade : String :=
    if score < 35 then "Safe" else if score < 65 then "Moderate" else "High"
  let candidates : List Reason :=
    (if avs_concentration > 50 then [Reason.highAvsConcentration avs_concentration] else []) ++
    (if liquidity_health < 70 then [Reason.moderateLiquidityDepth liquidity_health] else []) ++
    (if operator_uptime < (995/10 : ℚ) then [Reason.uptimeBelowOptimal operator_uptime] else []) ++
    (if slashing_score > 30 then [Reason.elevatedSlashingRisk slashing_score] else [])
  let reasons : List Reason :=
    if candidates = [] then
      [Reason.allClearLowRisk, Reason.allClearStrongOperator, Reason.allClearDiversified]
    else candidates
  { score := score, grade := grade, reasons := reasons.take 3 }

/-- One venue row of the liquidity data (`LiquidityChainData` in `main.py`),
restricted to the fields `calculate_liquidity_health_index` reads. -/
structure LiquidityChainData where
  depth_usd : ℚ
  slippage_bps : ℤ
deriving DecidableEq, Repr

/-- Embedding of `calculate_liquidity_health_index`
(`src/backend/main.py` lines 510-523). -/
def calculate_liquidity_health_index (liquidity_data : List LiquidityChainData) : ℤ :=
  if liquidity_data = [] then 50
  else
    let total_depth : ℚ := (liquidity_data.map (·.depth_usd)).sum
    let avg_slippage : ℚ :=
      ((liquidity_data.map (·.slippage_bps)).sum : ℚ) / (liquidity_data.length : ℚ)
    let depth_score : ℚ := min 100 ((total_depth / 10000000) * 100)
    let slippage_score : ℚ := max 0 (100 - avg_slippage)
    clamp100 (pyInt (depth_score * (6/10) + slippage_score * (4/10)))

/-- Result of `EigenExplorerClient.calculate_slashing_risk_score`, restricted
to the fields the claims read (`proxy_score`, grade/level, input bands). -/
structure SlashingRiskResult where
  proxy_score : ℤ
  grade : String
  risk_level : String
  operator_uptime_band : String
  client_diversity_band : String
deriving DecidableEq, Repr

/-- Embedding of `EigenExplorerClient.calculate_slashing_risk_score`
(`src/backend/eigenexplorer_client.py` lines 206-298). Mirrors the
sequential accumulation `risk_score += factor * weight` and the final
`int(risk_score)` truncation. -/
def calculate_slashing_risk_score (operator_uptime : ℚ)
    (client_diversity_score : ℤ) (dvt_enabled : Bool)
    (avs_audit_status : String) : SlashingRiskResult :=
  let uptime_risk : ℚ :=
    if operator_uptime ≥ (999/10 : ℚ) then 0
    else if operator_uptime ≥ (995/10 : ℚ) then 10
    else if operator_uptime ≥ 99 then 20
    else 40
  let uptime_band : String :=
    if operator_uptime ≥ (999/10 : ℚ) then "Green"
    else if operator_uptime ≥ (995/10 : ℚ) then "Green"
    else if operator_uptime ≥ 99 then "Amber"
    else "Red"
  let diversity_risk : ℚ := (100 - (client_diversity_score : ℚ)) * (2/10)
  let diversity_band : String :=
    if client_diversity_score ≥ 75 then "Green"
    else if client_diversity_score ≥ 60 then "Amber"
    else "Red"
  let dvt_risk : ℚ := if dvt_enabled then 0 else 30
  let audit_risk : ℚ :=
    if str_lower avs_audit_status = "audited" then 0
    else if str_lower avs_audit_status = "in_progress" then 15
    else if str_lower avs_audit_status = "mixed" then 10
    else if str_lower avs_audit_status = "none" then 30
    else 15
  let risk_score : ℤ :=
    pyInt (uptime_risk * (4/10) + diversity_risk * (2/10) +
           dvt_risk * (2/10) + audit_risk * (2/10))
  let grade : String :=
    if risk_score < 15 then "A"
    else if risk_score < 30 then "B"
    else if risk_score < 50 then "C"
    else "D"
  let risk_level : String :=
    if risk_score < 15 then "Very Low"
    else if risk_score < 30 then "Low"
    else if risk_score < 50 then "Moderate"
    else "High"
  { proxy_score := risk_score, grade := grade, risk_level := risk_level,
    operator_uptime_band := uptime_band, client_diversity_band := diversity_band }

/-- Model of `PortfolioAsset` from `enhanced_portfolio_analyzer.py`. -/
structure PortfolioAsset where
  symbol : String
  balance : ℚ
  current_price : ℚ
  value_usd : ℚ
  apy : ℚ
  risk_score : ℤ
  liquidity_score : ℤ
deriving DecidableEq, Repr

/-- Model of `PortfolioMetrics` from `enhanced_portfolio_analyzer.py`. -/
structure PortfolioMetrics where
  total_value_usd : ℚ
  total_staked_eth : ℚ
  total_restaked_pct : ℚ
  blended_apy : ℚ
  overall_risk_score : ℤ
  liquidity_health : ℤ
  diversification_score : ℤ
deriving DecidableEq, Repr

/-- Tagged model of the strings appearing in strategy recommendations:
fixed strings are `lit`, strings built by a format template carry their
numeric payload. -/
inductive TextItem where
  | lit (s : String)
  | monitorUptime (pct : ℚ)
  | stableApy (apy : ℚ)
  | potentialApy (apy : ℚ)
  | availableLiquidity (tvl : ℚ)
deriving DecidableEq, Repr

/-- Model of `StrategyRecommendation` from `enhanced_portfolio_analyzer.py`. -/
structure StrategyRecommendation where
  name : String
  description : String
  expected_apy : ℚ
  risk_level : String
  steps : List TextItem
  pros : List TextItem
  cons : List TextItem
  data_sources : List String
deriving DecidableEq, Repr

/-- The `market_context` dict built by `analyze_portfolio`. -/
structure MarketContext where
  eth_price : ℚ
  validator_uptime : ℚ
  total_protocol_tvl : ℚ
  liquidity_venues : List String
  avs_concentration : ℚ
deriving DecidableEq, Repr

/-- Model of `PortfolioAnalysisResult` from `enhanced_portfolio_analyzer.py`. -/
structure PortfolioAnalysisResult where
  timestamp : String
  assets : List PortfolioAsset
  metrics : PortfolioMetrics
  recommendations : List StrategyRecommendation
  market_context : MarketContext
  data_quality : String
deriving DecidableEq, Repr

/-- The upstream values `analyze_portfolio` obtains from its `_get_*`
helpers (prices, APYs, risk metrics, liquidity data, restaking data),
passed as explicit inputs since the helpers perform I/O. Each field is the
value of the corresponding `dict.get(key, default)` read in the body. -/
structure UpstreamSnapshots where
  price_eth : ℚ
  price_eeth : ℚ
  price_weeth : ℚ
  apy_eeth : ℚ
  apy_weeth : ℚ
  apy_liquid_usd : ℚ
  apy_total_tvl : ℚ
  operator_risk : ℤ
  uptime_pct : ℚ
  eeth_liquidity : ℤ
  weeth_liquidity : ℤ
  liquidity_total_tvl : ℚ
  venues : List String
  restaked_pct : ℚ
  largest_avs_pct : ℚ
  real_data_available : Bool
deriving DecidableEq, Repr

/-- The sum `total_value = sum(asset.value_usd for asset in assets)`. -/
def total_value_of (assets : List PortfolioAsset) : ℚ :=
  (assets.map (·.value_usd)).sum

/-- The guarded value-weighted mean `weighted_apy` of `analyze_portfolio`
(`enhanced_portfolio_analyzer.py` lines 166-168). -/
def weighted_apy_of (assets : List PortfolioAsset) : ℚ :=
  if total_value_of assets > 0 then
    ((assets.map fun a => a.value_usd * a.apy).sum) / total_value_of assets
  else 0

/-- The guarded value-weighted mean `weighted_risk` of `analyze_portfolio`
(lines 170-172). -/
def weighted_risk_of (assets : List PortfolioAsset) : ℚ :=
  if total_value_of assets > 0 then
    ((assets.map fun a => a.value_usd * (a.risk_score : ℚ)).sum) / total_value_of assets
  else 0

/-- The guarded value-weighted mean `avg_liquidity` of `analyze_portfolio`
(lines 174-176). -/
def avg_liquidity_of (assets : List PortfolioAsset) : ℚ :=
  if total_value_of assets > 0 then
    ((assets.map fun a => a.value_usd * (a.liquidity_score : ℚ)).sum) / total_value_of assets
  else 0

/-- The diversification computation of `analyze_portfolio`
(`enhanced_portfolio_analyzer.py` lines 179-190). With two or more assets
the allocations `asset.value_usd / total_value` are computed without any
guard, so a zero total raises `ZeroDivisionError` in Python — modelled as
`none`. -/
def diversification_from_assets (assets : List PortfolioAsset) : Option ℤ :=
  match assets with
  | [] => some 0
  | [_] => some 20
  | a₁ :: a₂ :: rest =>
    let total := total_value_of (a₁ :: a₂ :: rest)
    if total = 0 then none
    else
      let hhi : ℚ := ((a₁ :: a₂ :: rest).map (fun a => (a.value_usd / total) ^ 2)).sum
      some (pyInt ((1 - hhi) * 100))

/-- Embedding of `EnhancedPortfolioAnalyzer._generate_recommendations`
(`enhanced_portfolio_analyzer.py` lines 340-428). The Python signature also
receives `assets` and `apy_data`, which the body never reads; the values it
does read besides `metrics` are `risk_metrics.get("uptime_pct", 99.5)` and
`liquidity_data.get("total_tvl", 0)`, passed here directly. -/
def generate_recommendations (metrics : PortfolioMetrics)
    (uptime_pct : ℚ) (liquidity_total_tvl : ℚ) : List StrategyRecommendation :=
  (if metrics.overall_risk_score < 40 then
    [{ name := "Conservative Hold",
       description := "Maintain current allocation with low-risk staking",
       expected_apy := metrics.blended_apy,
       risk_level := "Low",
       steps := [TextItem.lit "Continue holding weETH/eETH for stable staking rewards",
                 TextItem.monitorUptime uptime_pct,
                 TextItem.lit "Maintain Liquid USD position for liquidity"],
       pros := [TextItem.lit "Low risk with DVT protection",
                TextItem.lit "Good liquidity across multiple chains",
                TextItem.stableApy metrics.blended_apy],
       cons := [TextItem.lit "Limited upside potential",
                TextItem.lit "Not maximizing yield opportunities"],
       data_sources := ["Beaconcha.in", "DefiLlama", "Uniswap"] }]
   else []) ++
  (if metrics.liquidity_health > 80 then
    [{ name := "Yield Optimization",
       description := "Leverage weETH collateral for additional yield",
       expected_apy := metrics.blended_apy * (3/2),
       risk_level := "Moderate",
       steps := [TextItem.lit "Supply weETH as collateral",
                 TextItem.lit "Borrow stablecoins at ≤50% LTV",
                 TextItem.lit "Deploy to Liquid USD (10% APY)",
                 TextItem.lit "Monitor liquidation risk"],
       pros := [TextItem.potentialApy (metrics.blended_apy * (3/2)),
                TextItem.lit "Deep liquidity for unwinding position",
                TextItem.availableLiquidity liquidity_total_tvl],
       cons := [TextItem.lit "Liquidation risk if ETH drops",
                TextItem.lit "Interest rate volatility",
                TextItem.lit "Smart contract risk"],
       data_sources := ["Uniswap Subgraph", "DefiLlama"] }]
   else []) ++
  (if metrics.diversification_score < 60 then
    [{ name := "Diversification",
       description := "Reduce concentration risk across AVS and assets",
       expected_apy := metrics.blended_apy * (9/10),
       risk_level := "Low-Moderate",
       steps := [TextItem.lit "Reduce single-AVS exposure (currently concentrated)",
                 TextItem.lit "Split allocation across eETH and weETH",
                 TextItem.lit "Consider multi-chain deployment",
                 TextItem.lit "Add uncorrelated assets"],
       pros := [TextItem.lit "Lower protocol concentration risk",
                TextItem.lit "Multi-chain liquidity options",
                TextItem.lit "Better risk-adjusted returns"],
       cons := [TextItem.lit "Slightly lower raw APY",
                TextItem.lit "More complex management",
                TextItem.lit "Higher gas costs for rebalancing"],
       data_sources := ["EigenExplorer", "Uniswap Subgraph"] }]
   else [])

/-- The asset-list construction of `analyze_portfolio`
(`enhanced_portfolio_analyzer.py` lines 112-163): one `PortfolioAsset` per
strictly positive balance, in the fixed order ETH, eETH, weETH, LiquidUSD. -/
def portfolio_assets (eth_balance eeth_balance weeth_balance liquid_usd_balance : ℚ)
    (d : UpstreamSnapshots) : List PortfolioAsset :=
  (if eth_balance > 0 then
    [{ symbol := "ETH", balance := eth_balance, current_price := d.price_eth,
       value_usd := eth_balance * d.price_eth, apy := 0,
       risk_score := 25, liquidity_score := 100 }] else []) ++
  (if eeth_balance > 0 then
    [{ symbol := "eETH", balance := eeth_balance, current_price := d.price_eeth,
       value_usd := eeth_balance * d.price_eeth, apy := d.apy_eeth,
       risk_score := d.operator_risk, liquidity_score := d.eeth_liquidity }] else []) ++
  (if weeth_balance > 0 then
    [{ symbol := "weETH", balance := weeth_balance, current_price := d.price_weeth,
       value_usd := weeth_balance * d.price_weeth, apy := d.apy_weeth,
       risk_score := d.operator_risk, liquidity_score := d.weeth_liquidity }] else []) ++
  (if liquid_usd_balance > 0 then
    [{ symbol := "LiquidUSD", balance := liquid_usd_balance, current_price := 1,
       value_usd := liquid_usd_balance, apy := d.apy_liquid_usd,
       risk_score := 40, liquidity_score := 100 }] else [])

/-- Embedding of `EnhancedPortfolioAnalyzer.analyze_portfolio`
(`enhanced_portfolio_analyzer.py` lines 80-225), after resolving the
awaited `_get_*` helpers into the `UpstreamSnapshots` input. `datetime.now()`
is passed as the `now` input. Returns `none` exactly when Python raises
`ZeroDivisionError` (two or more assets with zero total value). -/
def analyze_portfolio (eth_balance eeth_balance weeth_balance liquid_usd_balance : ℚ)
    (d : UpstreamSnapshots) (now : String) : Option PortfolioAnalysisResult :=
  let assets : List PortfolioAsset :=
    portfolio_assets eth_balance eeth_balance weeth_balance liquid_usd_balance d
  match diversification_from_assets assets with
  | none => none
  | some diversification =>
    let metrics : PortfolioMetrics :=
      { total_value_usd := total_value_of assets,
        total_staked_eth := eeth_balance + weeth_balance,
        total_restaked_pct := d.restaked_pct,
        blended_apy := weighted_apy_of assets,
        overall_risk_score := pyInt (weighted_risk_of assets),
        liquidity_health := pyInt (avg_liquidity_of assets),
        diversification_score := diversification }
    let recommendations := generate_recommendations metrics d.uptime_pct d.liquidity_total_tvl
    let market_context : MarketContext :=
      { eth_price := d.price_eth, validator_uptime := d.uptime_pct,
        total_protocol_tvl := d.apy_total_tvl, liquidity_venues := d.venues,
        avs_concentration := d.largest_avs_pct }
    some { timestamp := now, assets := assets, metrics := metrics,
           recommendations := recommendations, market_context := market_context,
           data_quality := if d.real_data_available then "real" else "mock" }

end Backend

open Backend

/-! ### Spec-side definitions

These follow the words of the specification / claims (not the code), for
comparison with the code-side embeddings above. -/

/-- The composite risk value as the spec's §4.4 words state it:
`clamp(round(uptime_risk + concentration_risk + slashing_risk +
liquidity_risk), 0, 100)` with the four weighted factor formulas. -/
def spec_composite_risk_round (uptime_pct largest_share_pct : ℚ)
    (slashing_proxy liquidity_health : ℤ) : ℤ :=
  clamp100 (round (max 0 (100 - uptime_pct) * 2 + min largest_share_pct 100 * (1/2) +
    (slashing_proxy : ℚ) * (3/10) + max 0 (100 - (liquidity_health : ℚ)) * (3/10)))

/-- The composite risk value with the rounding amended to Python's `int`
truncation, which is what the code performs. -/
def spec_composite_risk_trunc (uptime_pct largest_share_pct : ℚ)
    (slashing_proxy liquidity_health : ℤ) : ℤ :=
  clamp100 (pyInt (max 0 (100 - uptime_pct) * 2 + min largest_share_pct 100 * (1/2) +
    (slashing_proxy : ℚ) * (3/10) + max 0 (100 - (liquidity_health : ℚ)) * (3/10)))

/-- The claim that the slashing proxy score is a weighted blend of four
*banded* inputs: some fixed lookup tables, each valued in [0,100] on bands,
with weights 40/20/20/20, whose weighted sum gives the proxy score. The
uptime and client-diversity lookups may read only the computed band. -/
def spec_banded_blend_claim : Prop :=
  ∃ fu fd : String → ℚ, ∃ fdvt : Bool → ℚ, ∃ fa : String → ℚ,
    (∀ b, 0 ≤ fu b ∧ fu b ≤ 100) ∧
    (∀ b, 0 ≤ fd b ∧ fd b ≤ 100) ∧
    (∀ b, 0 ≤ fdvt b ∧ fdvt b ≤ 100) ∧
    (∀ s, 0 ≤ fa s ∧ fa s ≤ 100) ∧
    ∀ (u : ℚ) (c : ℤ) (dvt : Bool) (aud : String), 0 ≤ c → c ≤ 100 →
      ((calculate_slashing_risk_score u c dvt aud).proxy_score : ℚ) =
        fu (calculate_slashing_risk_score u c dvt aud).operator_uptime_band * (4/10) +
        fd (calculate_slashing_risk_score u c dvt aud).client_diversity_band * (2/10) +
        fdvt dvt * (2/10) + fa aud * (2/10)

/-- The fixed uptime-band partial risk of the slashing proxy (lookup
values 0 / 10 / 20 / 40). -/
def spec_uptime_lookup (u : ℚ) : ℚ :=
  if u ≥ (999/10 : ℚ) then 0
  else if u ≥ (995/10 : ℚ) then 10
  else if u ≥ 99 then 20
  else 40

/-- The DVT-presence partial risk of the slashing proxy (0 if protected,
30 otherwise). -/
def spec_dvt_lookup (dvt : Bool) : ℚ := if dvt then 0 else 30

/-- The audit-status partial risk of the slashing proxy (case-insensitive
lookup: audited 0, in_progress 15, mixed 10, none 30, default 15). -/
def spec_audit_lookup (s : String) : ℚ :=
  if str_lower s = "audited" then 0
  else if str_lower s = "in_progress" then 15
  else if str_lower s = "mixed" then 10
  else if str_lower s = "none" then 30
  else 15

/-- C4's candidate reasons: one per factor crossing its fixed threshold,
in the spec's priority order (concentration, liquidity, uptime, slashing). -/
def spec_reason_candidates (uptime_pct largest_share_pct : ℚ)
    (slashing_proxy liquidity_health : ℤ) : List Reason :=
  (if largest_share_pct > 50 then [Reason.highAvsConcentration largest_share_pct] else []) ++
  (if liquidity_health < 70 then [Reason.moderateLiquidityDepth liquidity_health] else []) ++
  (if uptime_pct < (995/10 : ℚ) then [Reason.uptimeBelowOptimal uptime_pct] else []) ++
  (if slashing_proxy > 30 then [Reason.elevatedSlashingRisk slashing_proxy] else [])

/-- The three fixed "all clear" reasons. -/
def spec_all_clear_reasons : List Reason :=
  [Reason.allClearLowRisk, Reason.allClearStrongOperator, Reason.allClearDiversified]

/-- C4's top_reasons: the candidates truncated to 3, or the fixed all-clear
strings when no factor triggers. -/
def spec_top_reasons (uptime_pct largest_share_pct : ℚ)
    (slashing_proxy liquidity_health : ℤ) : List Reason :=
  if spec_reason_candidates uptime_pct largest_share_pct slashing_proxy liquidity_health = [] then
    spec_all_clear_reasons
  else
    (spec_reason_candidates uptime_pct largest_share_pct slashing_proxy liquidity_health).take 3

/-- C5's claimed diversification score over the asset values: 0 for no
assets, the fixed floor 20 for one asset, otherwise `round((1 − hhi) × 100)`
with `hhi` the sum of squared allocation fractions. -/
def spec_diversification_round (values : List ℚ) : ℤ :=
  match values with
  | [] => 0
  | [_] => 20
  | v₁ :: v₂ :: rest =>
    let total := (v₁ :: v₂ :: rest).sum
    let hhi : ℚ := ((v₁ :: v₂ :: rest).map (fun v => (v / total) ^ 2)).sum
    round ((1 - hhi) * 100)

/-- The diversification score with the rounding amended to Python's `int`
truncation, which is what the code performs. -/
def spec_diversification_trunc (values : List ℚ) : ℤ :=
  match values with
  | [] => 0
  | [_] => 20
  | v₁ :: v₂ :: rest =>
    let total := (v₁ :: v₂ :: rest).sum
    let hhi : ℚ := ((v₁ :: v₂ :: rest).map (fun v => (v / total) ^ 2)).sum
    pyInt ((1 - hhi) * 100)

/-- The projection of an analysis result to every field except the
timestamp. -/
def result_without_timestamp (r : PortfolioAnalysisResult) :
    List PortfolioAsset × PortfolioMetrics × List StrategyRecommendation × MarketContext × String :=
  (r.assets, r.metrics, r.recommendations, r.market_context, r.data_quality)

/-- The projection of an analysis result to every field except
`metrics.total_staked_eth`: the timestamp, the asset list, the six other
metric fields, the recommendations, the market context and the data
quality. -/
def result_without_staked (r : PortfolioAnalysisResult) :
    String × List PortfolioAsset × ℚ × ℚ × ℚ × ℤ × ℤ × ℤ ×
      List StrategyRecommendation × MarketContext × String :=
  (r.timestamp, r.assets, r.metrics.total_value_usd, r.metrics.total_restaked_pct,
   r.metrics.blended_apy, r.metrics.overall_risk_score, r.metrics.liquidity_health,
   r.metrics.diversification_score, r.recommendations, r.market_context, r.data_quality)

/-! ### Sample upstream snapshots used for concrete instantiations -/

/-- The Python fallback values returned by the `_get_*` helpers when no API
client is available (`enhanced_portfolio_analyzer.py` lines 226-339). -/
def fallbackSnapshots : UpstreamSnapshots :=
  { price_eth := 3500, price_eeth := 3500, price_weeth := 3600,
    apy_eeth := 16/5, apy_weeth := 16/5, apy_liquid_usd := 10,
    apy_total_tvl := 8500000000,
    operator_risk := 30, uptime_pct := 995/10,
    eeth_liquidity := 85, weeth_liquidity := 95,
    liquidity_total_tvl := 0, venues := ["Uniswap", "Curve"],
    restaked_pct := 62, largest_avs_pct := 231/5,
    real_data_available := false }

/-- A snapshot whose ETH and eETH prices are 1 (all other fields as the
fallback), giving directly controllable asset values. -/
def unitPriceSnapshots : UpstreamSnapshots :=
  { fallbackSnapshots with price_eth := 1, price_eeth := 1 }

/-- A snapshot whose ETH and eETH prices are 0, producing zero-value
assets. -/
def zeroPriceSnapshots : UpstreamSnapshots :=
  { fallbackSnapshots with price_eth := 0, price_eeth := 0 }

/-! ### Helper lemmas -/

lemma clamp100_bounds (n : ℤ) : 0 ≤ clamp100 n ∧ clamp100 n ≤ 100 := by
  unfold clamp100; omega

lemma pyInt_eq (q : ℚ) (z : ℤ) (h0 : 0 ≤ q) (h1 : (z : ℚ) ≤ q) (h2 : q < z + 1) :
    pyInt q = z := by
  unfold pyInt
  rw [if_pos h0]
  exact Int.floor_eq_iff.mpr ⟨h1, h2⟩

/-! ### Claim theorems -/

/-- C1, counterexample: the claim rounds the raw weighted sum, but the code
truncates it (`int(...)`). At uptime 100, largest share 1.5, slashing 0,
liquidity health 100 the raw sum is 0.75: the code returns 0 while the
claimed `clamp(round(raw), 0, 100)` gives 1. -/
theorem C1_round_counterexample :
    (Backend.calculate_risk_score 100 (3/2) 0 100).score = 0 ∧
    spec_composite_risk_round 100 (3/2) 0 100 = 1 := by
  constructor
  · have h : pyInt (max 0 (100 - (100:ℚ)) * 2 + min (3/2) 100 * (1/2) +
        ((0:ℤ) : ℚ) * (3/10) + max 0 (100 - ((100:ℤ) : ℚ)) * (3/10)) = 0 :=
      pyInt_eq _ _ (by norm_num) (by norm_num) (by norm_num)
    simp only [Backend.calculate_risk_score, h]
    decide
  · have h : round (max 0 (100 - (100:ℚ)) * 2 + min (3/2) 100 * (1/2) +
        ((0:ℤ) : ℚ) * (3/10) + max 0 (100 - ((100:ℤ) : ℚ)) * (3/10)) = 1 := by
      rw [round_eq]
      rw [show (max 0 (100 - (100:ℚ)) * 2 + min (3/2) 100 * (1/2) +
        ((0:ℤ) : ℚ) * (3/10) + max 0 (100 - ((100:ℤ) : ℚ)) * (3/10) + 1/2) = (5/4 : ℚ) by
          norm_num]
      rw [Int.floor_eq_iff]
      norm_num
    simp only [spec_composite_risk_round, h]
    decide

/-- C1, amended: for every input, the composite risk score equals
`clamp(trunc(uptime_risk + concentration_risk + slashing_risk +
liquidity_risk), 0, 100)` — the four weighted factors as claimed, but with
Python `int` truncation in place of rounding. -/
theorem C1_composite_risk_formula (u a : ℚ) (s l : ℤ) :
    (Backend.calculate_risk_score u a s l).score = spec_composite_risk_trunc u a s l := rfl

/-- C2, counterexample: the slashing proxy score is not a weighted blend of
four banded inputs each mapped through a lookup table: no choice of
per-band lookup values can reproduce the code, because two client-diversity
scores in the same band (75 and 100, both "Green") yield different proxy
scores (1 and 0) with all other inputs fixed. -/
theorem C2_banded_blend_counterexample : ¬ spec_banded_blend_claim := by
  rintro ⟨fu, fd, fdvt, fa, -, -, -, -, h⟩
  have h1 := h (999/10) 75 true "audited" (by norm_num) (by norm_num)
  have h2 := h (999/10) 100 true "audited" (by norm_num) (by norm_num)
  have e : str_lower "audited" = "audited" := by decide
  norm_num [Backend.calculate_slashing_risk_score, e, pyInt] at h1 h2
  linarith [h1, h2]

/-- C2, amended: the proxy score is the truncated weighted sum of a banded
uptime lookup (weight 40%), a linear client-diversity term
`(100 − score) × 0.2` (weight 20%, effective 4% — not a band lookup), a DVT
lookup (weight 20%) and an audit-status lookup (weight 20%). -/
theorem C2_slashing_proxy_formula (u : ℚ) (c : ℤ) (dvt : Bool) (aud : String) :
    (Backend.calculate_slashing_risk_score u c dvt aud).proxy_score =
      pyInt (spec_uptime_lookup u * (4/10) + ((100 - (c : ℚ)) * (2/10)) * (2/10) +
             spec_dvt_lookup dvt * (2/10) + spec_audit_lookup aud * (2/10)) := rfl

/-- C3: for every input the returned risk score lies in [0,100], and at the
extreme input (uptime 0, largest share 100, slashing 100, liquidity 0) the
clamp holds at the boundary, returning exactly 100. -/
theorem C3_risk_score_in_range :
    (∀ u a s l, 0 ≤ (Backend.calculate_risk_score u a s l).score ∧
      (Backend.calculate_risk_score u a s l).score ≤ 100) ∧
    (Backend.calculate_risk_score 0 100 100 0).score = 100 := by
  constructor
  · intro u a s l
    simp only [Backend.calculate_risk_score]
    exact clamp100_bounds _
  · have h : pyInt (max 0 (100 - (0:ℚ)) * 2 + min 100 100 * (1/2) +
        ((100:ℤ) : ℚ) * (3/10) + max 0 (100 - ((0:ℤ) : ℚ)) * (3/10)) = 310 :=
      pyInt_eq _ _ (by norm_num) (by norm_num) (by norm_num)
    simp only [Backend.calculate_risk_score, h]
    decide

/-- C4: for every input, top_reasons is the list of candidate reasons for
the factors crossing their thresholds (largest share > 50, liquidity < 70,
uptime < 99.5, slashing > 30), in that priority order, truncated to 3, with
the 3 fixed all-clear strings when none trigger; and on the spec scenario
(uptime 98, share 70, liquidity 50, slashing 45) the grade is "High" and
the reasons are concentration, liquidity, uptime, in that order. -/
theorem C4_top_reasons_priority :
    (∀ u a s l, (Backend.calculate_risk_score u a s l).reasons = spec_top_reasons u a s l) ∧
    (Backend.calculate_risk_score 98 70 45 50).grade = "High" ∧
    (Backend.calculate_risk_score 98 70 45 50).reasons =
      [Backend.Reason.highAvsConcentration 70, Backend.Reason.moderateLiquidityDepth 50,
       Backend.Reason.uptimeBelowOptimal 98] := by
  refine ⟨?_, ?_, ?_⟩
  · intro u a s l
    simp only [Backend.calculate_risk_score, spec_top_reasons, spec_reason_candidates,
      spec_all_clear_reasons]
    split_ifs <;> rfl
  · have h : pyInt (max 0 (100 - (98:ℚ)) * 2 + min 70 100 * (1/2) +
        ((45:ℤ) : ℚ) * (3/10) + max 0 (100 - ((50:ℤ) : ℚ)) * (3/10)) = 67 :=
      pyInt_eq _ _ (by norm_num) (by norm_num) (by norm_num)
    simp only [Backend.calculate_risk_score, h]
    decide
  · simp only [Backend.calculate_risk_score]
    norm_num
    rfl

/-- C10: the liquidity health index is total and always in [0,100]; on the
empty venue list it returns the neutral value 50. -/
theorem C10_liquidity_health_total :
    Backend.calculate_liquidity_health_index [] = 50 ∧
    ∀ l, 0 ≤ Backend.calculate_liquidity_health_index l ∧
      Backend.calculate_liquidity_health_index l ≤ 100 := by
  constructor
  · rfl
  · intro l
    unfold Backend.calculate_liquidity_health_index
    split_ifs
    · constructor <;> norm_num
    · exact clamp100_bounds _

/-! ### Portfolio-analyzer helper lemmas -/

lemma analyze_portfolio_div_map (b1 b2 b3 b4 : ℚ) (d : UpstreamSnapshots) (now : String) :
    (analyze_portfolio b1 b2 b3 b4 d now).map (fun r => r.metrics.diversification_score) =
    diversification_from_assets (portfolio_assets b1 b2 b3 b4 d) := by
  simp only [analyze_portfolio]
  cases diversification_from_assets (portfolio_assets b1 b2 b3 b4 d) <;> rfl

lemma analyze_portfolio_assets_map {α : Type} (f : List PortfolioAsset → α)
    (b1 b2 b3 b4 : ℚ) (d : UpstreamSnapshots) (now : String) :
    (analyze_portfolio b1 b2 b3 b4 d now).map (fun r => f r.assets) =
    (diversification_from_assets (portfolio_assets b1 b2 b3 b4 d)).map
      (fun _ => f (portfolio_assets b1 b2 b3 b4 d)) := by
  simp only [analyze_portfolio]
  cases diversification_from_assets (portfolio_assets b1 b2 b3 b4 d) <;> rfl

lemma analyze_portfolio_timestamp_map (b1 b2 b3 b4 : ℚ) (d : UpstreamSnapshots) (now : String) :
    (analyze_portfolio b1 b2 b3 b4 d now).map (fun r => r.timestamp) =
    (diversification_from_assets (portfolio_assets b1 b2 b3 b4 d)).map (fun _ => now) := by
  simp only [analyze_portfolio]
  cases diversification_from_assets (portfolio_assets b1 b2 b3 b4 d) <;> rfl

lemma portfolio_assets_max (b1 b2 b3 b4 : ℚ) (d : UpstreamSnapshots) :
    portfolio_assets b1 b2 b3 b4 d =
      portfolio_assets (max b1 0) (max b2 0) (max b3 0) (max b4 0) d := by
  have e1 : (if b1 > 0 then
        [{ symbol := "ETH", balance := b1, current_price := d.price_eth,
           value_usd := b1 * d.price_eth, apy := 0,
           risk_score := 25, liquidity_score := 100 }] else ([] : List PortfolioAsset)) =
      (if max b1 0 > 0 then
        [{ symbol := "ETH", balance := max b1 0, current_price := d.price_eth,
           value_usd := max b1 0 * d.price_eth, apy := 0,
           risk_score := 25, liquidity_score := 100 }] else []) := by
    rcases le_or_lt b1 0 with h | h
    · rw [if_neg (not_lt.mpr h), if_neg (by rw [max_eq_right h]; exact lt_irrefl 0)]
    · rw [if_pos h, if_pos (show max b1 0 > 0 by rw [max_eq_left h.le]; exact h),
        max_eq_left h.le]
  have e2 : (if b2 > 0 then
        [{ symbol := "eETH", balance := b2, current_price := d.price_eeth,
           value_usd := b2 * d.price_eeth, apy := d.apy_eeth,
           risk_score := d.operator_risk,
           liquidity_score := d.eeth_liquidity }] else ([] : List PortfolioAsset)) =
      (if max b2 0 > 0 then
        [{ symbol := "eETH", balance := max b2 0, current_price := d.price_eeth,
           value_usd := max b2 0 * d.price_eeth, apy := d.apy_eeth,
           risk_score := d.operator_risk,
           liquidity_score := d.eeth_liquidity }] else []) := by
    rcases le_or_lt b2 0 with h | h
    · rw [if_neg (not_lt.mpr h), if_neg (by rw [max_eq_right h]; exact lt_irrefl 0)]
    · rw [if_pos h, if_pos (show max b2 0 > 0 by rw [max_eq_left h.le]; exact h),
        max_eq_left h.le]
  have e3 : (if b3 > 0 then
        [{ symbol := "weETH", balance := b3, current_price := d.price_weeth,
           value_usd := b3 * d.price_weeth, apy := d.apy_weeth,
           risk_score := d.operator_risk,
           liquidity_score := d.weeth_liquidity }] else ([] : List PortfolioAsset)) =
      (if max b3 0 > 0 then
        [{ symbol := "weETH", balance := max b3 0, current_price := d.price_weeth,
           value_usd := max b3 0 * d.price_weeth, apy := d.apy_weeth,
           risk_score := d.operator_risk,
           liquidity_score := d.weeth_liquidity }] else []) := by
    rcases le_or_lt b3 0 with h | h
    · rw [if_neg (not_lt.mpr h), if_neg (by rw [max_eq_right h]; exact lt_irrefl 0)]
    · rw [if_pos h, if_pos (show max b3 0 > 0 by rw [max_eq_left h.le]; exact h),
        max_eq_left h.le]
  have e4 : (if b4 > 0 then
        [{ symbol := "LiquidUSD", balance := b4, current_price := 1,
           value_usd := b4, apy := d.apy_liquid_usd,
           risk_score := 40, liquidity_score := 100 }] else ([] : List PortfolioAsset)) =
      (if max b4 0 > 0 then
        [{ symbol := "LiquidUSD", balance := max b4 0, current_price := 1,
           value_usd := max b4 0, apy := d.apy_liquid_usd,
           risk_score := 40, liquidity_score := 100 }] else []) := by
    rcases le_or_lt b4 0 with h | h
    · rw [if_neg (not_lt.mpr h), if_neg (by rw [max_eq_right h]; exact lt_irrefl 0)]
    · rw [if_pos h, if_pos (show max b4 0 > 0 by rw [max_eq_left h.le]; exact h),
        max_eq_left h.le]
  unfold portfolio_assets
  rw [e1, e2, e3, e4]

lemma portfolio_assets_51_49 :
    portfolio_assets 51 49 0 0 unitPriceSnapshots =
      [{ symbol := "ETH", balance := 51, current_price := 1, value_usd := 51,
         apy := 0, risk_score := 25, liquidity_score := 100 },
       { symbol := "eETH", balance := 49, current_price := 1, value_usd := 49,
         apy := 16/5, risk_score := 30, liquidity_score := 85 }] := by
  norm_num [portfolio_assets, unitPriceSnapshots, fallbackSnapshots]

lemma div_51_49 :
    diversification_from_assets
      [{ symbol := "ETH", balance := 51, current_price := 1, value_usd := 51,
         apy := 0, risk_score := 25, liquidity_score := 100 },
       { symbol := "eETH", balance := 49, current_price := 1, value_usd := 49,
         apy := 16/5, risk_score := 30, liquidity_score := 85 }] = some 49 := by
  simp only [diversification_from_assets]
  rw [if_neg (by norm_num [total_value_of])]
  simp only [Option.some.injEq]
  apply pyInt_eq <;> norm_num [total_value_of]

lemma spec_round_51_49 : spec_diversification_round [(51 : ℚ), 49] = 50 := by
  simp only [spec_diversification_round]
  rw [round_eq]
  rw [Int.floor_eq_iff]
  norm_num

lemma diversification_from_assets_spec :
    ∀ (assets : List PortfolioAsset) (v : ℤ),
      diversification_from_assets assets = some v →
      v = spec_diversification_trunc (assets.map (·.value_usd))
  | [], v, h => by
      simp only [diversification_from_assets, Option.some.injEq] at h
      simp [spec_diversification_trunc, ← h]
  | [a], v, h => by
      simp only [diversification_from_assets, Option.some.injEq] at h
      simp [spec_diversification_trunc, ← h]
  | a :: b :: rest, v, h => by
      by_cases ht : total_value_of (a :: b :: rest) = 0
      · simp [diversification_from_assets, ht] at h
      · simp only [diversification_from_assets, if_neg ht, Option.some.injEq] at h
        subst h
        simp only [spec_diversification_trunc, List.map_cons]
        congr 1
        simp only [total_value_of, List.map_cons, List.map_map]
        rfl

/-! ### Claim theorems over the portfolio analyzer -/

/-- C5, counterexample: the claim says the diversification score for two or
more assets is `round((1 − hhi) × 100)`, but the code truncates. For a
two-asset portfolio with values 51 and 49 (hhi = 0.5002, score raw 49.98)
the analyzer returns 49 while the claimed rounding gives 50. -/
theorem C5_round_counterexample :
    ((analyze_portfolio 51 49 0 0 unitPriceSnapshots "t").map
        fun r => r.metrics.diversification_score) = some 49 ∧
    ((analyze_portfolio 51 49 0 0 unitPriceSnapshots "t").map
        fun r => spec_diversification_round (r.assets.map (·.value_usd))) = some 50 := by
  constructor
  · rw [analyze_portfolio_div_map, portfolio_assets_51_49, div_51_49]
  · rw [analyze_portfolio_assets_map
      (fun l => spec_diversification_round (l.map (·.value_usd)))]
    rw [portfolio_assets_51_49, div_51_49]
    simpa using spec_round_51_49

/-- C5, amended: whenever the analyzer returns a result, its
diversification score is 0 for no assets, the fixed floor 20 for one
asset, and `trunc((1 − hhi) × 100)` (Python `int`, not `round`) for two or
more assets, with hhi the sum of squared allocation fractions
`value_usd / total_value_usd`. -/
theorem C5_diversification_formula (b1 b2 b3 b4 : ℚ) (d : UpstreamSnapshots) (now : String) :
    ((analyze_portfolio b1 b2 b3 b4 d now).map fun r => r.metrics.diversification_score) =
    ((analyze_portfolio b1 b2 b3 b4 d now).map fun r =>
        spec_diversification_trunc (r.assets.map (·.value_usd))) := by
  rw [analyze_portfolio_div_map,
    analyze_portfolio_assets_map (fun l => spec_diversification_trunc (l.map (·.value_usd)))]
  cases h : diversification_from_assets (portfolio_assets b1 b2 b3 b4 d) with
  | none => rfl
  | some v => simp [diversification_from_assets_spec _ _ h]

/-- C6, counterexample: with two assets of zero value (balances 1 and 1,
prices 0) the total portfolio value is 0, yet the analyzer does not return
zeroed metrics: the unguarded allocation division
`asset.value_usd / total_value` raises ZeroDivisionError (modelled as
`none`), so nothing is returned at all. -/
theorem C6_zero_total_counterexample :
    analyze_portfolio 1 1 0 0 zeroPriceSnapshots "t" = none ∧
    total_value_of (portfolio_assets 1 1 0 0 zeroPriceSnapshots) = 0 := by
  have hassets : portfolio_assets 1 1 0 0 zeroPriceSnapshots =
      [{ symbol := "ETH", balance := 1, current_price := 0, value_usd := 0,
         apy := 0, risk_score := 25, liquidity_score := 100 },
       { symbol := "eETH", balance := 1, current_price := 0, value_usd := 0,
         apy := 16/5, risk_score := 30, liquidity_score := 85 }] := by
    norm_num [portfolio_assets, zeroPriceSnapshots, fallbackSnapshots]
  have hdiv : diversification_from_assets (portfolio_assets 1 1 0 0 zeroPriceSnapshots) = none := by
    rw [hassets]
    simp only [diversification_from_assets]
    rw [if_pos (by norm_num [total_value_of])]
  constructor
  · have := analyze_portfolio_div_map 1 1 0 0 zeroPriceSnapshots "t"
    rw [hdiv] at this
    exact Option.map_eq_none'.mp this
  · rw [hassets]
    norm_num [total_value_of]

/-- C6, amended: when the total value is zero and at most one asset was
built (in particular the empty asset set), the analyzer returns
blended_apy = 0, overall_risk_score = 0 and liquidity_health = 0 — those
three divisions are guarded; only the diversification allocation division
is not (see the counterexample). -/
theorem C6_zero_total_guarded (b1 b2 b3 b4 : ℚ) (d : UpstreamSnapshots) (now : String)
    (hlen : (portfolio_assets b1 b2 b3 b4 d).length ≤ 1)
    (htotal : total_value_of (portfolio_assets b1 b2 b3 b4 d) = 0) :
    ((analyze_portfolio b1 b2 b3 b4 d now).map fun r =>
        (r.metrics.blended_apy, r.metrics.overall_risk_score, r.metrics.liquidity_health)) =
      some (0, 0, 0) := by
  have hz : ∀ assets : List PortfolioAsset, total_value_of assets = 0 →
      weighted_apy_of assets = 0 ∧ pyInt (weighted_risk_of assets) = 0 ∧
      pyInt (avg_liquidity_of assets) = 0 := by
    intro assets h
    refine ⟨?_, ?_, ?_⟩ <;>
      simp [weighted_apy_of, weighted_risk_of, avg_liquidity_of, h, pyInt]
  rcases hA : portfolio_assets b1 b2 b3 b4 d with _ | ⟨a, _ | ⟨b, rest⟩⟩
  · rw [hA] at htotal
    simp only [analyze_portfolio, hA, diversification_from_assets, Option.map_some']
    obtain ⟨h1, h2, h3⟩ := hz [] htotal
    rw [h1, h2, h3]
  · rw [hA] at htotal
    simp only [analyze_portfolio, hA, diversification_from_assets, Option.map_some']
    obtain ⟨h1, h2, h3⟩ := hz [a] htotal
    rw [h1, h2, h3]
  · rw [hA] at hlen
    simp at hlen

/-- C6, witness: the empty portfolio satisfies both hypotheses of
`C6_zero_total_guarded` and yields zeroed metrics. -/
theorem C6_zero_total_guarded_witness :
    (portfolio_assets 0 0 0 0 fallbackSnapshots).length ≤ 1 ∧
    total_value_of (portfolio_assets 0 0 0 0 fallbackSnapshots) = 0 ∧
    ((analyze_portfolio 0 0 0 0 fallbackSnapshots "t").map fun r =>
        (r.metrics.blended_apy, r.metrics.overall_risk_score, r.metrics.liquidity_health)) =
      some (0, 0, 0) := by
  have hnil : portfolio_assets 0 0 0 0 fallbackSnapshots = [] := by
    norm_num [portfolio_assets]
  refine ⟨by simp [hnil], by simp [hnil, total_value_of], ?_⟩
  exact C6_zero_total_guarded 0 0 0 0 fallbackSnapshots "t"
    (by simp [hnil]) (by simp [hnil, total_value_of])

/-- C7: the recommendation engine emits "Conservative Hold" exactly when
overall_risk_score < 40 (at the blended APY), "Yield Optimization" exactly
when liquidity_health > 80 with expected_apy = blended_apy × 1.5, and
"Diversification" exactly when diversification_score < 60 with
expected_apy = blended_apy × 0.9; the rules are independent and every
eligible recommendation is returned, in that order. -/
theorem C7_recommendation_rules (m : PortfolioMetrics) (uptime_pct liquidity_total_tvl : ℚ) :
    ((generate_recommendations m uptime_pct liquidity_total_tvl).map
        fun r => (r.name, r.expected_apy)) =
      (if m.overall_risk_score < 40 then [("Conservative Hold", m.blended_apy)] else []) ++
      (if m.liquidity_health > 80 then [("Yield Optimization", m.blended_apy * (3/2))] else []) ++
      (if m.diversification_score < 60 then [("Diversification", m.blended_apy * (9/10))] else []) := by
  simp only [generate_recommendations]
  split_ifs <;> simp

/-- C8, counterexample: a negative ETH balance is not rejected: the
analyzer succeeds and returns exactly the same result as for a zero
balance, silently dropping the asset instead of raising a descriptive
error. -/
theorem C8_negative_balance_counterexample :
    analyze_portfolio (-5) 0 0 0 fallbackSnapshots "t" =
      analyze_portfolio 0 0 0 0 fallbackSnapshots "t" ∧
    (analyze_portfolio (-5) 0 0 0 fallbackSnapshots "t").isSome = true := by
  have h : portfolio_assets (-5) 0 0 0 fallbackSnapshots =
      portfolio_assets 0 0 0 0 fallbackSnapshots := by
    norm_num [portfolio_assets]
  have hnil : portfolio_assets (-5) 0 0 0 fallbackSnapshots = [] := by
    norm_num [portfolio_assets]
  constructor
  · simp only [analyze_portfolio, h]
  · simp only [analyze_portfolio, hnil, diversification_from_assets, Option.isSome_some]

/-- C8, amended: a negative balance in the holdings is not rejected and no
error is raised: the asset list treats every non-positive balance exactly
as 0 (the asset is silently omitted), every field of the result except
`metrics.total_staked_eth` is identical to the request with the negative
balances zeroed, and for negative ETH / LiquidUSD balances the whole
result is identical to the zeroed request. (Negative eETH / weETH
balances additionally leak into `total_staked_eth`, which sums the raw
balances, so there the rest of the result still matches the zeroed
request but that one metric does not.) -/
theorem C8_negative_balance_ignored :
    (∀ (b1 b2 b3 b4 : ℚ) (d : UpstreamSnapshots),
        portfolio_assets b1 b2 b3 b4 d =
          portfolio_assets (max b1 0) (max b2 0) (max b3 0) (max b4 0) d) ∧
    (∀ (b1 b2 b3 b4 : ℚ) (d : UpstreamSnapshots) (now : String),
        (analyze_portfolio b1 b2 b3 b4 d now).map result_without_staked =
          (analyze_portfolio (max b1 0) (max b2 0) (max b3 0) (max b4 0) d now).map
            result_without_staked) ∧
    (∀ (b1 b2 b3 b4 : ℚ) (d : UpstreamSnapshots) (now : String), b1 ≤ 0 → b4 ≤ 0 →
        analyze_portfolio b1 b2 b3 b4 d now = analyze_portfolio 0 b2 b3 0 d now) := by
  refine ⟨portfolio_assets_max, ?_, ?_⟩
  · intro b1 b2 b3 b4 d now
    simp only [analyze_portfolio, portfolio_assets_max b1 b2 b3 b4 d]
    cases diversification_from_assets
      (portfolio_assets (max b1 0) (max b2 0) (max b3 0) (max b4 0) d) <;> rfl
  · intro b1 b2 b3 b4 d now h1 h4
    have h : portfolio_assets b1 b2 b3 b4 d = portfolio_assets 0 b2 b3 0 d := by
      unfold portfolio_assets
      rw [if_neg (not_lt.mpr h1), if_neg (not_lt.mpr h4),
        if_neg (lt_irrefl (0 : ℚ)), if_neg (lt_irrefl (0 : ℚ))]
    simp only [analyze_portfolio, h]

/-- C8, witness: balances −5 (ETH) and −7 (LiquidUSD) satisfy the
hypotheses of the third part of `C8_negative_balance_ignored`, and the
request behaves exactly like the all-zero one. -/
theorem C8_negative_balance_ignored_witness :
    (-5 : ℚ) ≤ 0 ∧ (-7 : ℚ) ≤ 0 ∧
    analyze_portfolio (-5) 0 0 (-7) fallbackSnapshots "t" =
      analyze_portfolio 0 0 0 0 fallbackSnapshots "t" :=
  ⟨by norm_num, by norm_num,
   C8_negative_balance_ignored.2.2 (-5) 0 0 (-7) fallbackSnapshots "t"
     (by norm_num) (by norm_num)⟩

/-- C9, counterexample: two calls with identical holdings and identical
upstream snapshots but different wall-clock times (the `datetime.now()`
timestamp recorded in the result) produce different outputs, so the claim
of bit-identical results is false. -/
theorem C9_timestamp_counterexample :
    analyze_portfolio 0 0 5 1200 fallbackSnapshots "2024-01-01T00:00:00" ≠
    analyze_portfolio 0 0 5 1200 fallbackSnapshots "2024-01-01T00:00:01" := by
  intro h
  have h' := congrArg (Option.map (fun r => r.timestamp)) h
  rw [analyze_portfolio_timestamp_map, analyze_portfolio_timestamp_map] at h'
  rcases hd : diversification_from_assets (portfolio_assets 0 0 5 1200 fallbackSnapshots)
    with _ | v
  · refine absurd hd ?_
    have ha : portfolio_assets 0 0 5 1200 fallbackSnapshots =
        [{ symbol := "weETH", balance := 5, current_price := 3600, value_usd := 18000,
           apy := 16/5, risk_score := 30, liquidity_score := 95 },
         { symbol := "LiquidUSD", balance := 1200, current_price := 1, value_usd := 1200,
           apy := 10, risk_score := 40, liquidity_score := 100 }] := by
      norm_num [portfolio_assets, fallbackSnapshots]
    rw [ha]
    simp only [diversification_from_assets]
    rw [if_neg (by norm_num [total_value_of])]
    simp
  · rw [hd] at h'
    simp at h'

/-- C9, amended: two calls with identical holdings and identical upstream
snapshots agree on every field of the result except the timestamp, which
records each call's wall-clock time. -/
theorem C9_idempotent_except_timestamp (b1 b2 b3 b4 : ℚ) (d : UpstreamSnapshots)
    (now₁ now₂ : String) :
    (analyze_portfolio b1 b2 b3 b4 d now₁).map result_without_timestamp =
    (analyze_portfolio b1 b2 b3 b4 d now₂).map result_without_timestamp := by
  simp only [analyze_portfolio]
  cases diversification_from_assets (portfolio_assets b1 b2 b3 b4 d) <;> rfl
